import Mathlib

/-
A shallow embedding of `src/js/InputHandler.js` from bootstrap-colorpicker.

The class `InputHandler` mediates between an optional text input element
(the Bound Field) and the owning colorpicker widget.  We model:

  * JavaScript runtime values (`JSVal`) with their truthiness and strict
    equality (`===` is decidable equality on `JSVal`);
  * the mutable state the handler touches: the input element (its `value`
    property and `disabled` flag) and the widget's `lastEvent` record;
  * the read-only collaborator surface of the widget (`Colorpicker`):
    options, `getSafeColorString`, `resolveColor`, `isInvalidColor`,
    and `Color#toString(format)` for color-model instances;
  * outward effects as an explicit trace (`Effect`): DOM writes of the
    value property, triggered `change` events, calls into the widget's own
    `setValue`, and event (un)subscriptions.

Every method of the class becomes a function `HandlerState → HandlerState
× List Effect` (or a pure reader).  All definitions are computable and all
predicates decidable, so concrete runs evaluate by `decide`/`rfl`.
-/

namespace BootstrapColorpicker

/-- A JavaScript runtime value, as far as `InputHandler.js` discriminates
them: `undefined`, `null`, booleans, numbers, strings, and color-model
instances (`instanceof Color`), the latter identified by an id standing
for the object reference. -/
inductive JSVal where
  | undef
  | nullv
  | bool (b : Bool)
  | num (n : Int)
  | str (s : String)
  | color (ref : Nat)
deriving DecidableEq

/-- JavaScript truthiness of a `JSVal` (`if (v) ...`). -/
def truthy : JSVal → Bool
  | JSVal.undef => false
  | JSVal.nullv => false
  | JSVal.bool b => b
  | JSVal.num n => n != 0
  | JSVal.str s => s != ""
  | JSVal.color _ => true

/-- The widget's `lastEvent` record (the Last Interaction Record):
`{alias, e}` where `e` is the originating DOM event, modelled by an
opaque event id. -/
structure LastEvent where
  eventAlias : String
  e : Option Nat
deriving DecidableEq

/-- The DOM state of the bound input element that the handler reads and
writes: its `value` property and its `disabled` property. -/
structure InputState where
  value : String
  disabled : Bool
deriving DecidableEq

/-- The mutable state touched by `InputHandler`: `this.input` (either a
resolved input element or the sentinel `false`, modelled by `Option`) and
the owning widget's `lastEvent` record. -/
structure HandlerState where
  input : Option InputState
  lastEvent : LastEvent
deriving DecidableEq

/-- The read-only collaborator surface of the owning widget, as consumed
by `InputHandler`: the options it reads (`useHashPrefix` and
`autoInputFallback`, kept as raw `JSVal`s because the code compares them
with `===`/`!==` against booleans), `getSafeColorString()` (a `String`,
with `""` standing for any falsy result), `resolveColor`,
`isInvalidColor()`, and `toString(format)` of a color-model instance
(`colorToString`, with the widget's `format` baked in). -/
structure Colorpicker where
  useHashPrefix : JSVal
  autoInputFallback : JSVal
  getSafeColorString : String
  resolveColor : String → String
  isInvalidColor : Bool
  colorToString : Nat → String

/-- An outward effect of a handler method: a write of the input's `value`
property, a triggered `change` event (with the value it carries), a call
to the widget's own `setValue`, or an event (un)subscription. -/
inductive Effect where
  | fieldWrite (v : String)
  | changeEvent (v : String)
  | widgetSetValue (v : JSVal)
  | subscribeEvent (name : String)
  | unsubscribeNamespace (ns : String)
deriving DecidableEq

/-- `hasInput()`: `this.input !== false`. -/
def hasInput (st : HandlerState) : Bool :=
  st.input.isSome

/-- `getValue()`: the input's raw text, or the boolean `false` when there
is no input. -/
def getValue (st : HandlerState) : JSVal :=
  match st.input with
  | none => JSVal.bool false
  | some i => JSVal.str i.value

/-- JS `val.replace(/^#/g, '')`: without the multiline flag the anchor
`^` matches only at index 0, so even with the `g` flag at most the single
leading `#` character is removed. -/
def replaceLeadingHash (s : String) : String :=
  match s.data with
  | '#' :: rest => String.mk rest
  | _ => s

/-- `getFormattedColor(val = null)`: substitute `getSafeColorString()`
for a falsy argument (`none` models `null`), return `""` when the result
is still falsy, pass it through `resolveColor`, and strip a leading hash
exactly when `options.useHashPrefix === false`. -/
def getFormattedColor (cp : Colorpicker) (v : Option String) : String :=
  let val :=
    match v with
    | some s => if s != "" then s else cp.getSafeColorString
    | none => cp.getSafeColorString
  if val = "" then ""
  else
    let r := cp.resolveColor val
    if cp.useHashPrefix = JSVal.bool false then replaceLeadingHash r else r

/-- Normalisation `val = val ? val : ''` applied to `setValue`'s string
argument (`none` models `null`/`undefined`; the only falsy string is
`""`, which normalises to itself). -/
def normArg : Option String → String
  | none => ""
  | some s => s

/-- `setValue(val)`: no-op without an input; otherwise normalise the
argument, return silently when it strictly equals the (normalised)
current value, else write it to the `value` property and trigger a
`change` event carrying it. -/
def setValue (st : HandlerState) (v : Option String) : HandlerState × List Effect :=
  match st.input with
  | none => (st, [])
  | some i =>
    let inputVal := i.value
    let val := normArg v
    if val = (if inputVal != "" then inputVal else "") then (st, [])
    else
      ({ st with input := some { i with value := val } },
       [Effect.fieldWrite val, Effect.changeEvent val])

/-- `isDisabled()`: `hasInput() && (this.input.prop('disabled') === true)`. -/
def isDisabled (st : HandlerState) : Bool :=
  match st.input with
  | none => false
  | some i => i.disabled

/-- `disable()`: set the input's `disabled` property when there is an
input; no event is triggered. -/
def disable (st : HandlerState) : HandlerState × List Effect :=
  match st.input with
  | none => (st, [])
  | some i => ({ st with input := some { i with disabled := true } }, [])

/-- `enable()`: clear the input's `disabled` property when there is an
input; no event is triggered. -/
def enable (st : HandlerState) : HandlerState × List Effect :=
  match st.input with
  | none => (st, [])
  | some i => ({ st with input := some { i with disabled := false } }, [])

/-- `bind()`: subscribe the two namespaced handlers; no-op without an
input. -/
def bind (st : HandlerState) : HandlerState × List Effect :=
  match st.input with
  | none => (st, [])
  | some _ =>
    (st, [Effect.subscribeEvent ("keyup.colorpicker"),
          Effect.subscribeEvent ("change.colorpicker")])

/-- `unbind()`: unsubscribe everything in the `.colorpicker` namespace;
no-op without an input. -/
def unbind (st : HandlerState) : HandlerState × List Effect :=
  match st.input with
  | none => (st, [])
  | some _ => (st, [Effect.unsubscribeNamespace (".colorpicker")])

/-- The guard `preventsUpdate` computed inside `update()`:
`(options.autoInputFallback !== true) && (isInvalidColor() ||
lastEvent.eventAlias === 'input.keyup')`. -/
def preventsUpdate (cp : Colorpicker) (st : HandlerState) : Bool :=
  (cp.autoInputFallback != JSVal.bool true) &&
    (cp.isInvalidColor || st.lastEvent.eventAlias = "input.keyup")

/-- `update()`: no-op without an input; no-op when `preventsUpdate`
holds; otherwise `setValue(getFormattedColor())`. -/
def update (cp : Colorpicker) (st : HandlerState) : HandlerState × List Effect :=
  match st.input with
  | none => (st, [])
  | some _ =>
    if preventsUpdate cp st then (st, [])
    else setValue st (some (getFormattedColor cp none))

/-- `onchange(e)`: record `{alias := 'input.change', e}` into the
widget's `lastEvent`, read `getValue()`, and when it strictly differs
from `getFormattedColor()` call the widget's `setValue` with it. -/
def onchange (cp : Colorpicker) (st : HandlerState) (e : Nat) :
    HandlerState × List Effect :=
  let st1 := { st with lastEvent := { eventAlias := "input.change", e := some e } }
  let val := getValue st1
  if val != JSVal.str (getFormattedColor cp none) then
    (st1, [Effect.widgetSetValue val])
  else (st1, [])

/-- `onkeyup(e)`: record `{alias := 'input.keyup', e}` into the widget's
`lastEvent`, read `getValue()`, and when it strictly differs from
`getFormattedColor()` call the widget's `setValue` with it. -/
def onkeyup (cp : Colorpicker) (st : HandlerState) (e : Nat) :
    HandlerState × List Effect :=
  let st1 := { st with lastEvent := { eventAlias := "input.keyup", e := some e } }
  let val := getValue st1
  if val != JSVal.str (getFormattedColor cp none) then
    (st1, [Effect.widgetSetValue val])
  else (st1, [])

/-- The candidate-selection loop of `_initValue`: `let val = '';
[...].map(item => { if (item && (val === '')) val = item; })`. -/
def seedCandidate (cands : List JSVal) : JSVal :=
  cands.foldl
    (fun val item =>
      if truthy item && (val = JSVal.str ("")) then item else val)
    (JSVal.str (""))

/-- `_initValue()`: no-op without an input; otherwise pick the first
truthy candidate among the input's current value, its `color` data entry
and its `data-color` attribute, render a color-model instance through
`getFormattedColor(val.toString(format))`, replace any other non-string
by `""`, and write the result to the input's `value` property. -/
def initValue (cp : Colorpicker) (st : HandlerState)
    (dataColor attrDataColor : JSVal) : HandlerState :=
  match st.input with
  | none => st
  | some i =>
    let val := seedCandidate [JSVal.str i.value, dataColor, attrDataColor]
    let v : String :=
      match val with
      | JSVal.color c => getFormattedColor cp (some (cp.colorToString c))
      | JSVal.str s => s
      | _ => ""
    { st with input := some { i with value := v } }

/-- The constructor's resolution of `this.input`: the widget's own
element when it is itself an input, else `element.find(options.input)`
when the option is truthy, else `false`; a jQuery result of length 0 is
then replaced by `false`.  `BoundInput.jq n` models a jQuery set of `n`
elements, `BoundInput.noInput` the sentinel `false`. -/
inductive BoundInput where
  | jq (len : Nat)
  | noInput
deriving DecidableEq

/-- The two statements of the constructor that establish `this.input`:
`elementIsInput` is `element.is('input')`, `elementLen` the length of the
widget's element, `optInput` the raw `options.input` value, and
`foundLen` the length of `element.find(options.input)`. -/
def resolveInput (elementIsInput : Bool) (elementLen : Nat)
    (optInput : JSVal) (foundLen : Nat) : BoundInput :=
  let i :=
    if elementIsInput then BoundInput.jq elementLen
    else if truthy optInput then BoundInput.jq foundLen
    else BoundInput.noInput
  match i with
  | BoundInput.jq 0 => BoundInput.noInput
  | x => x

/-- The handler state a constructor outcome gives rise to: a resolved
jQuery set boxes an input element, the sentinel `false` leaves the state
without one. -/
def stateOfResolved (b : BoundInput) (iv : InputState) (le : LastEvent) :
    HandlerState :=
  match b with
  | BoundInput.noInput => { input := none, lastEvent := le }
  | BoundInput.jq _ => { input := some iv, lastEvent := le }

/-- Number of `value`-property writes in an effect trace. -/
def countFieldWrites (l : List Effect) : Nat :=
  l.countP (fun e => match e with | Effect.fieldWrite _ => true | _ => false)

/-- Number of triggered `change` events in an effect trace. -/
def countChangeEvents (l : List Effect) : Nat :=
  l.countP (fun e => match e with | Effect.changeEvent _ => true | _ => false)

/-- The suppression condition as the specification words it: the widget's
`autoInputFallback` option is not enabled (not strictly the boolean
`true`), and the widget currently holds an invalid color or the Last
Interaction Record's alias is `"input.keyup"`. -/
def suppressionSpec (cp : Colorpicker) (st : HandlerState) : Prop :=
  cp.autoInputFallback ≠ JSVal.bool true ∧
    (cp.isInvalidColor = true ∨ st.lastEvent.eventAlias = "input.keyup")

/-- A concrete collaborator whose `resolveColor` is the identity, with
`useHashPrefix === false`; used to instantiate theorems at concrete
inputs. -/
def cpId : Colorpicker :=
  { useHashPrefix := JSVal.bool false
  , autoInputFallback := JSVal.undef
  , getSafeColorString := ""
  , resolveColor := fun s => s
  , isInvalidColor := false
  , colorToString := fun _ => "" }

/-- `cpId` with `useHashPrefix === true`. -/
def cpIdHashTrue : Colorpicker :=
  { cpId with useHashPrefix := JSVal.bool true }

/-- A Last Interaction Record with an empty alias and no event. -/
def leNone : LastEvent := { eventAlias := "", e := none }

/-- A handler state whose input resolved to the sentinel `false`. -/
def stNoInput : HandlerState := { input := none, lastEvent := leNone }

/-- A handler state whose input currently shows `"#ffffff"`. -/
def stWhite : HandlerState :=
  { input := some { value := "#ffffff", disabled := false }, lastEvent := leNone }

/-- Truthy values are never the empty string value. -/
theorem truthy_ne_emptyStr (v : JSVal) (h : truthy v = true) :
    v ≠ JSVal.str ("") := by
  cases v <;> simp_all [truthy]

/-- C1 (counterexample): on a synchronizer with no Bound Field, the
user-origin handler `onchange` is not a no-op: it overwrites the widget's
Last Interaction Record (and forwards `false` to the widget). -/
theorem c1_counterexample :
    hasInput stNoInput = false ∧
    (onchange cpId stNoInput 7).1.lastEvent ≠ stNoInput.lastEvent ∧
    (onchange cpId stNoInput 7).1.lastEvent.eventAlias = "input.change" ∧
    (onchange cpId stNoInput 7).2 = [Effect.widgetSetValue (JSVal.bool false)] := by
  decide

/-- C1 (amended): without a Bound Field, `getValue()` returns `false` and
`setValue`, `update`, `disable`, `enable`, `bind`, `unbind` are no-ops
(state unchanged, no effects, nothing thrown, Last Interaction Record
untouched); the user-origin handlers `onchange`/`onkeyup`, however, do
overwrite the Last Interaction Record when invoked directly (though
`bind()` never attaches them). -/
theorem c1_no_field_noop (cp : Colorpicker) (le : LastEvent)
    (v : Option String) (e : Nat) :
    let st : HandlerState := { input := none, lastEvent := le }
    getValue st = JSVal.bool false ∧
    setValue st v = (st, []) ∧
    update cp st = (st, []) ∧
    disable st = (st, []) ∧
    enable st = (st, []) ∧
    bind st = (st, []) ∧
    unbind st = (st, []) ∧
    (onchange cp st e).1.lastEvent =
      { eventAlias := "input.change", e := some e } ∧
    (onkeyup cp st e).1.lastEvent =
      { eventAlias := "input.keyup", e := some e } := by
  simp [getValue, setValue, update, disable, enable, bind, unbind,
    onchange, onkeyup]

/-- The normalisation `inputVal ? inputVal : ''` is the identity on
strings. -/
theorem if_empty_self (s : String) : (if s = "" then "" else s) = s := by
  split <;> simp_all

/-- Closed form of `setValue` on a state with an input. -/
theorem setValue_some (iv : InputState) (le : LastEvent) (v : Option String) :
    setValue { input := some iv, lastEvent := le } v =
      if normArg v = iv.value then ({ input := some iv, lastEvent := le }, [])
      else ({ input := some { iv with value := normArg v }, lastEvent := le },
            [Effect.fieldWrite (normArg v), Effect.changeEvent (normArg v)]) := by
  simp [setValue, if_empty_self]

/-- C2 (counterexample): when the field already holds the (normalised)
candidate, the first of two consecutive `setValue` calls performs zero
writes and zero events, not exactly one as the claim demands. -/
theorem c2_counterexample :
    (setValue stWhite (some ("#ffffff"))).2 = [] ∧
    ¬ (countFieldWrites (setValue stWhite (some ("#ffffff"))).2 = 1 ∧
       countChangeEvents (setValue stWhite (some ("#ffffff"))).2 = 1) := by
  decide

/-- C2 (amended): if the normalisation of `v` equals the field's current
value, `setValue v` performs no write and emits no event; otherwise it
performs exactly one write and one event, both carrying the normalised
value; and the second of two consecutive `setValue v` calls is always a
no-op. -/
theorem c2_setValue_idempotent (iv : InputState) (le : LastEvent)
    (v : Option String) :
    let st : HandlerState := { input := some iv, lastEvent := le }
    (normArg v = iv.value → setValue st v = (st, [])) ∧
    (normArg v ≠ iv.value →
      (setValue st v).2 =
        [Effect.fieldWrite (normArg v), Effect.changeEvent (normArg v)] ∧
      countFieldWrites (setValue st v).2 = 1 ∧
      countChangeEvents (setValue st v).2 = 1) ∧
    setValue (setValue st v).1 v = ((setValue st v).1, []) := by
  dsimp only
  by_cases h : normArg v = iv.value
  · simp [setValue_some, h, countFieldWrites, countChangeEvents]
  · simp [setValue_some, h, countFieldWrites, countChangeEvents]


/-- The code's `preventsUpdate` guard holds exactly when the
specification's suppression condition does. -/
theorem preventsUpdate_iff (cp : Colorpicker) (st : HandlerState) :
    preventsUpdate cp st = true ↔ suppressionSpec cp st := by
  simp [preventsUpdate, suppressionSpec]

/-- C3: on a synchronizer with a Bound Field, `update()` is a strict
no-op when the suppression condition holds, and otherwise routes
`getFormattedColor()` into the field through `setValue`. -/
theorem c3_update_suppression (cp : Colorpicker) (iv : InputState)
    (le : LastEvent) :
    let st : HandlerState := { input := some iv, lastEvent := le }
    (suppressionSpec cp st → update cp st = (st, [])) ∧
    (¬ suppressionSpec cp st →
      update cp st = setValue st (some (getFormattedColor cp none))) := by
  dsimp only
  constructor
  · intro h
    rw [← preventsUpdate_iff] at h
    simp [update, h]
  · intro h
    rw [← preventsUpdate_iff] at h
    simp only [Bool.not_eq_true] at h
    simp [update, h]

/-- C4 (counterexample): with `useHashPrefix === false` and a resolved
color string `"##ff0000"` (two leading hashes, `resolveColor` being the
identity here), `getFormattedColor` returns `"#ff0000"`: only the first
leading `#` is stripped, not every one as the claim states. -/
theorem c4_counterexample :
    cpId.useHashPrefix = JSVal.bool false ∧
    cpId.resolveColor ("##ff0000") = "##ff0000" ∧
    getFormattedColor cpId (some ("##ff0000")) = "#ff0000" ∧
    getFormattedColor cpId (some ("##ff0000")) ≠ "ff0000" := by
  decide

/-- C4 (amended): when `useHashPrefix` is disabled, `getFormattedColor`
strips at most one leading `#` from the resolved string: if the resolved
string starts with `#`, exactly its first character is removed (any
further leading hashes stay); otherwise it is returned unchanged. -/
theorem c4_strip_single_hash (cp : Colorpicker) (s : String)
    (hopt : cp.useHashPrefix = JSVal.bool false) (hs : s ≠ "") :
    ((cp.resolveColor s).data.head? = some '#' →
      (getFormattedColor cp (some s)).data = (cp.resolveColor s).data.tail) ∧
    ((cp.resolveColor s).data.head? ≠ some '#' →
      getFormattedColor cp (some s) = cp.resolveColor s) := by
  have hval : getFormattedColor cp (some s) =
      replaceLeadingHash (cp.resolveColor s) := by
    simp [getFormattedColor, hs, hopt]
  rcases hd : (cp.resolveColor s).data with _ | ⟨c, cs⟩
  · constructor
    · intro hh
      simp at hh
    · intro _
      rw [hval]
      unfold replaceLeadingHash
      rw [hd]
  · by_cases hc : c = '#'
    · subst hc
      constructor
      · intro _
        rw [hval]
        simp [replaceLeadingHash, hd]
      · intro hh
        simp at hh
    · constructor
      · intro hh
        simp at hh
        exact absurd hh hc
      · intro _
        rw [hval]
        unfold replaceLeadingHash
        rw [hd]
        split
        · next heq =>
            rw [List.cons.injEq] at heq
            exact absurd heq.1 hc
        · rfl

/-- C4 (witness to the amended theorem, at the concrete collaborator
`cpId` and input `"##ff0000"`). -/
theorem c4_strip_single_hash_witness :
    ((cpId.resolveColor ("##ff0000")).data.head? = some '#' →
      (getFormattedColor cpId (some ("##ff0000"))).data =
        (cpId.resolveColor ("##ff0000")).data.tail) ∧
    ((cpId.resolveColor ("##ff0000")).data.head? ≠ some '#' →
      getFormattedColor cpId (some ("##ff0000")) =
        cpId.resolveColor ("##ff0000")) :=
  c4_strip_single_hash cpId ("##ff0000") rfl (by decide)

/-- C5: both user-origin handlers overwrite the Last Interaction Record
with their alias and the triggering event, leave the field untouched, and
call the widget's color-setting entry point with the raw field text
exactly once if and only if it differs from `getFormattedColor()`. -/
theorem c5_handler_delegation (cp : Colorpicker) (iv : InputState)
    (le : LastEvent) (e : Nat) :
    let st : HandlerState := { input := some iv, lastEvent := le }
    let f := getFormattedColor cp none
    (onchange cp st e).1 =
      { st with lastEvent := { eventAlias := "input.change", e := some e } } ∧
    (onchange cp st e).2 =
      (if iv.value ≠ f then [Effect.widgetSetValue (JSVal.str iv.value)]
       else []) ∧
    (onkeyup cp st e).1 =
      { st with lastEvent := { eventAlias := "input.keyup", e := some e } } ∧
    (onkeyup cp st e).2 =
      (if iv.value ≠ f then [Effect.widgetSetValue (JSVal.str iv.value)]
       else []) ∧
    countFieldWrites (onchange cp st e).2 = 0 ∧
    countChangeEvents (onchange cp st e).2 = 0 ∧
    countFieldWrites (onkeyup cp st e).2 = 0 ∧
    countChangeEvents (onkeyup cp st e).2 = 0 := by
  dsimp only
  by_cases h : iv.value = getFormattedColor cp none
  · simp [onchange, onkeyup, getValue, h, countFieldWrites, countChangeEvents]
  · simp [onchange, onkeyup, getValue, h, countFieldWrites, countChangeEvents]

/-- C7: `getValue()` returns the field's raw text when a Bound Field
exists and the boolean sentinel `false` otherwise, and the sentinel is
distinguishable from every string (in particular from `""`). -/
theorem c7_getValue_sentinel (iv : InputState) (le le2 : LastEvent)
    (s : String) :
    getValue { input := some iv, lastEvent := le } = JSVal.str iv.value ∧
    getValue { input := none, lastEvent := le2 } = JSVal.bool false ∧
    JSVal.bool false ≠ JSVal.str s := by
  simp [getValue]

/-- C8: `disable()` sets and `enable()` clears exactly the field's
disabled flag (value and Last Interaction Record untouched) with an empty
effect trace, both are no-ops without a Bound Field, and `isDisabled()`
is true iff a Bound Field exists and its flag is set. -/
theorem c8_disable_enable (iv : InputState) (le le2 : LastEvent) :
    disable { input := some iv, lastEvent := le } =
      ({ input := some { iv with disabled := true }, lastEvent := le }, []) ∧
    enable { input := some iv, lastEvent := le } =
      ({ input := some { iv with disabled := false }, lastEvent := le }, []) ∧
    isDisabled { input := some iv, lastEvent := le } = iv.disabled ∧
    disable { input := none, lastEvent := le2 } =
      ({ input := none, lastEvent := le2 }, []) ∧
    enable { input := none, lastEvent := le2 } =
      ({ input := none, lastEvent := le2 }, []) ∧
    isDisabled { input := none, lastEvent := le2 } = false := by
  simp [disable, enable, isDisabled]

/-- C6: at construction the Displayed Value is seeded from the first
truthy candidate among the field's current value, the `color` data entry
and the `data-color` attribute, in that priority order; a color-model
candidate is rendered through the formatting helper, a string candidate
is kept as is, any other candidate is replaced by `""`, and the result is
written back into the field. -/
theorem c6_init_seeding (cp : Colorpicker) (iv : InputState)
    (le : LastEvent) (d a : JSVal) :
    let st : HandlerState := { input := some iv, lastEvent := le }
    let render : JSVal → String := fun v =>
      match v with
      | JSVal.color c => getFormattedColor cp (some (cp.colorToString c))
      | JSVal.str s => s
      | _ => ""
    initValue cp st d a =
      { st with input := some { iv with value :=
          if iv.value ≠ "" then iv.value
          else if (truthy d) then render d
          else if (truthy a) then render a
          else "" } } := by
  dsimp only
  unfold initValue seedCandidate
  simp only [List.foldl]
  by_cases h1 : iv.value = ""
  · cases d <;> cases a <;> simp_all [truthy] <;> split_ifs <;> simp_all
  · cases d <;> cases a <;> simp_all [truthy]

/-- C9: with a truthy `options.input` selector that matches zero elements
in a non-input container, the constructor resolves the Bound Field to the
sentinel `false` (`hasInput()` is false), exactly as when no selector is
configured at all. -/
theorem c9_empty_selector_absent (elementLen foundLen : Nat) (sel : JSVal)
    (iv : InputState) (le : LastEvent) (hsel : truthy sel = true) :
    resolveInput false elementLen sel 0 = BoundInput.noInput ∧
    resolveInput false elementLen sel 0 =
      resolveInput false elementLen JSVal.undef foundLen ∧
    hasInput (stateOfResolved (resolveInput false elementLen sel 0) iv le) =
      false := by
  simp [resolveInput, stateOfResolved, hasInput, hsel, show truthy JSVal.undef = false from rfl]

/-- C9 (witness): the selector `"input"` matching zero elements of a
one-element container resolves to no Bound Field. -/
theorem c9_empty_selector_absent_witness :
    resolveInput false 1 (JSVal.str ("input")) 0 = BoundInput.noInput ∧
    resolveInput false 1 (JSVal.str ("input")) 0 =
      resolveInput false 1 JSVal.undef 3 ∧
    hasInput
      (stateOfResolved (resolveInput false 1 (JSVal.str ("input")) 0)
        { value := "", disabled := false } leNone) = false :=
  c9_empty_selector_absent 1 3 (JSVal.str ("input"))
    { value := "", disabled := false } leNone (by decide)

/-- C10: `getFormattedColor` strips the leading hash exactly when
`useHashPrefix` is strictly the boolean `false`; for every other option
value the resolved string is returned untouched, its `#` prefix intact. -/
theorem c10_strict_false_only (cp : Colorpicker) (s : String)
    (hs : s ≠ "") :
    (cp.useHashPrefix = JSVal.bool false →
      getFormattedColor cp (some s) = replaceLeadingHash (cp.resolveColor s)) ∧
    (cp.useHashPrefix ≠ JSVal.bool false →
      getFormattedColor cp (some s) = cp.resolveColor s) := by
  constructor
  · intro h
    simp [getFormattedColor, hs, h]
  · intro h
    simp [getFormattedColor, hs, h]

/-- C10 (witness): with `useHashPrefix === true` (a value other than the
strict boolean `false`) the resolved string keeps its hash prefix. -/
theorem c10_strict_false_only_witness :
    (cpIdHashTrue.useHashPrefix = JSVal.bool false →
      getFormattedColor cpIdHashTrue (some ("#ff0000")) =
        replaceLeadingHash (cpIdHashTrue.resolveColor ("#ff0000"))) ∧
    (cpIdHashTrue.useHashPrefix ≠ JSVal.bool false →
      getFormattedColor cpIdHashTrue (some ("#ff0000")) =
        cpIdHashTrue.resolveColor ("#ff0000")) :=
  c10_strict_false_only cpIdHashTrue ("#ff0000") (by decide)

end BootstrapColorpicker
